import Mathlib

/-!
Verification of the baps3d core: the request vocabulary in
list/requests.go and the TCP connection server in netsrv/server.go.

The Go code is shallowly embedded.  External collaborators that are not
part of the visible source (the bifrost tokeniser and message codec, the
comm Controller and Client types, the operating system socket layer) are
represented by the outcomes they hand to the embedded code: each loop is
a function of the list of outcomes its external calls produce, and each
select statement over channels is given its Go semantics (a branch can
be taken only when it is ready).
-/

namespace Baps3d

/-! ## Data model, from list/requests.go -/

/-- Wire message of the bifrost package (external to the visible source):
a line-oriented message with a command word and arguments. -/
structure BifrostMessage where
  word : String
  args : List String
deriving DecidableEq

/-- Modelled from the spec: AutoMode is the enumerated value describing how
the list advances automatically (off / advance-on-completion / shuffle).
Its Go definition lives in the list package outside the visible source. -/
inductive AutoMode
  | off
  | advanceOnCompletion
  | shuffle
deriving DecidableEq

/-- The universe of Go values that can inhabit the `Body interface\x7b\x7d`
field of Request (list/requests.go line 30).  The four request structures
declared in list/requests.go (DumpRequest, SetSelectRequest, NextRequest,
SetAutoModeRequest) are constructors; because `interface\x7b\x7d` is an open
type, the universe also contains values that are not request bodies at
all, represented here by ordinary Go strings and integers. -/
inductive InterfaceValue
  | DumpRequest
  | SetSelectRequest (Index : Int) (Hash : String)
  | NextRequest
  | SetAutoModeRequest (AutoMode : AutoMode)
  | goString (s : String)
  | goInt (n : Int)
deriving DecidableEq

/-- RequestOrigin, list/requests.go lines 15-22: the optional bifrost
message a request was parsed from, and the reply channel for unicast
responses.  Channels are identified by natural numbers. -/
structure RequestOrigin where
  Message : Option BifrostMessage
  ReplyTx : Nat
deriving DecidableEq

/-- Request, list/requests.go lines 25-31: an origin plus an
`interface\x7b\x7d`-typed body. -/
structure Request where
  Origin : RequestOrigin
  Body : InterfaceValue
deriving DecidableEq

/-- The four request body kinds actually declared in list/requests.go,
as a closed inductive type (the closed tagged variant the spec asks
for). -/
inductive KnownRequestBody
  | dump
  | setSelect (Index : Int) (Hash : String)
  | next
  | setAutoMode (m : AutoMode)
deriving DecidableEq

/-- Injection of the four declared request kinds into the open
`interface\x7b\x7d` universe. -/
def KnownRequestBody.toBody : KnownRequestBody → InterfaceValue
  | .dump => .DumpRequest
  | .setSelect i h => .SetSelectRequest i h
  | .next => .NextRequest
  | .setAutoMode m => .SetAutoModeRequest m

/-- Tests whether an `interface\x7b\x7d` value is one of the four request
structures declared in list/requests.go. -/
def isKnownRequestBody : InterfaceValue → Bool
  | .DumpRequest => true
  | .SetSelectRequest _ _ => true
  | .NextRequest => true
  | .SetAutoModeRequest _ => true
  | .goString _ => false
  | .goInt _ => false

/-! ## Connection transmit loop RunTx, netsrv/server.go lines 176-199

RunTx repeatedly calls ReadLine on the tokeniser, LineToMessage on the
produced line, and conBifrost.Send on the produced message.  All three
are external calls; one loop iteration is therefore driven by one
`TxStep` recording their outcomes. -/

/-- Outcome of one RunTx iteration's external calls:
  * `readErr e` - ReadLine failed with error e (tokenising or I/O);
  * `parseErr l e` - ReadLine produced line l, LineToMessage failed
    with error e (tokenising succeeded, parsing failed);
  * `msg m ok` - the line tokenised and parsed to message m, and
    conBifrost.Send returned ok. -/
inductive TxStep
  | readErr (e : String)
  | parseErr (l : String) (e : String)
  | msg (m : BifrostMessage) (sendOk : Bool)
deriving DecidableEq

/-- outputError, netsrv/server.go lines 172-174: the log line it
produces. -/
def connectionError (e : String) : String := "connection error: " ++ e

/-- Result of running RunTx on a finite stream of step outcomes:
the messages successfully handed to conBifrost.Send (the only path by
which a wire line can reach the Controller), the log lines produced,
and the steps left unconsumed because the loop exited first
(empty leftover with the stream exhausted means the loop was still
reading). -/
structure TxResult where
  forwarded : List BifrostMessage
  logs : List String
  leftover : List TxStep
deriving DecidableEq

/-- RunTx, netsrv/server.go lines 178-199.  A read error logs and
breaks; a parse error logs and breaks; a failed Send logs and breaks;
a successful Send forwards the message and continues. -/
def RunTx : List TxStep → TxResult
  | [] => ⟨[], [], []⟩
  | .readErr e :: rest => ⟨[], [connectionError e], rest⟩
  | .parseErr _ e :: rest => ⟨[], [connectionError e], rest⟩
  | .msg _ false :: rest => ⟨[], ["client died while sending message"], rest⟩
  | .msg m true :: rest =>
      let r := RunTx rest
      ⟨m :: r.forwarded, r.logs, r.leftover⟩

/-! ## Connection receive loop RunRx, netsrv/server.go lines 152-169 -/

/-- Outcome of one RunRx iteration's external calls: a Response arrived
on conBifrost.Rx and either its Pack call failed, or it packed to bytes
and conn.Write either succeeded or failed with an error. -/
inductive RxStep
  | packErr (e : String)
  | packed (bytes : String) (writeErr : Option String)
deriving DecidableEq

/-- Result of running RunRx on a finite stream of step outcomes: the
byte strings successfully written to the socket, the log lines, and the
steps left unconsumed because the loop exited first. -/
structure RxResult where
  written : List String
  logs : List String
  leftover : List RxStep
deriving DecidableEq

/-- RunRx, netsrv/server.go lines 154-169.  A pack failure logs and
continues with the next Response; a write failure logs and breaks. -/
def RunRx : List RxStep → RxResult
  | [] => ⟨[], [], []⟩
  | .packErr e :: rest =>
      let r := RunRx rest
      ⟨r.written, connectionError e :: r.logs, r.leftover⟩
  | .packed _ (some e) :: rest => ⟨[], [connectionError e], rest⟩
  | .packed b none :: rest =>
      let r := RunRx rest
      ⟨b :: r.written, r.logs, r.leftover⟩

/-- A notification a per-connection goroutine sends to the main loop:
a hang-up request on s.clientHangUp carrying the client identifier. -/
inductive GoNotice
  | hangUp (c : Nat)
deriving DecidableEq

/-- The goroutine wrapping RunTx, netsrv/server.go lines 129-139: after
RunTx returns it races a send on s.clientHangUp against s.done.  Once
done is closed the main loop has returned and nothing receives on
clientHangUp, so the done branch is taken; while done is open the main
loop is at its select and the send is delivered. -/
def txGoroutine (cid : Nat) (doneClosed : Bool) (steps : List TxStep) :
    TxResult × List GoNotice :=
  (RunTx steps, if doneClosed then [] else [GoNotice.hangUp cid])

/-- The goroutine wrapping RunRx, netsrv/server.go lines 140-143: it
runs RunRx and then only marks the wait group done; it sends no
notification to the main loop. -/
def rxGoroutine (steps : List RxStep) : RxResult × List GoNotice :=
  (RunRx steps, [])

/-! ## Server state and per-connection setup, netsrv/server.go -/

/-- A network connection handed over by the listener, identified by a
stable number plus the remote address string used in log lines. -/
structure Conn where
  id : Nat
  addr : String
deriving DecidableEq

/-- Outcome of rootClient.Copy() (comm package, external to the visible
source): a fresh Client handle, or an error because the Controller has
already shut down. -/
inductive CopyResult
  | ok (clientId : Nat)
  | failed (e : String)
deriving DecidableEq

/-- The state the main loop owns: s.clients, the set of live connection
records (netsrv/server.go line 29), keyed here by connection identifier.
Identifiers are assumed distinct, as distinct sockets are distinct map
keys in the Go code. -/
structure ServerState where
  clients : List Nat
deriving DecidableEq

/-- Result of newClient: the updated server state, whether the socket
was closed, how many goroutines were spawned (the wg.Add count), the
log lines, and the returned error. -/
structure NewClientResult where
  state : ServerState
  closedConn : Bool
  spawned : Nat
  logs : List String
  errOut : Option String
deriving DecidableEq

/-- newClient, netsrv/server.go lines 110-150: logs the connection,
copies the root client; on copy failure closes the socket and returns
the error with nothing registered and nothing spawned; on success
registers the client record and spawns the three per-connection
goroutines. -/
def newClient (s : ServerState) (c : Conn) (copy : CopyResult) :
    NewClientResult :=
  match copy with
  | .failed e =>
      ⟨s, true, 0, ["new connection: " ++ c.addr], some e⟩
  | .ok _ =>
      ⟨⟨s.clients ++ [c.id]⟩, false, 3, ["new connection: " ++ c.addr], none⟩

/-- hangUpClient, netsrv/server.go lines 209-216: logs, closes the
client (a close failure only adds a log line and is elided here), and
deletes it from s.clients. -/
def hangUpClient (s : ServerState) (cid : Nat) : ServerState × List String :=
  (⟨s.clients.erase cid⟩, ["hanging up: " ++ toString cid])

/-- Spec-modelled placeholder for comm.Response values arriving on a
Client handle's Rx channel (the comm package is external to the visible
source); the main loop only drains them, so their payload is opaque. -/
structure RootResponse where
  payload : Nat
deriving DecidableEq

/-- One event multiplexed by the main loop's select,
netsrv/server.go lines 249-265: an acceptor error, an accepted
connection (bundled with the Copy outcome newClient will observe), a
client hang-up request, a drained root response, or the root Done
signal. -/
inductive MainEvent
  | accErr (e : String)
  | accConn (c : Conn) (copy : CopyResult)
  | clientHangUp (cid : Nat)
  | rootRx (r : RootResponse)
  | rootDone
deriving DecidableEq

/-- Why the main loop returned. -/
inductive ExitReason
  | acceptError
  | controllerShutdown
deriving DecidableEq

/-- Effect of one main loop iteration: the new state, the log lines,
the outbound wire messages written by the loop itself (none, the main
loop never touches a socket), and the exit reason when the iteration
returns. -/
structure MainStep where
  state : ServerState
  logs : List String
  wire : List String
  exit : Option ExitReason
deriving DecidableEq

/-- mainLoop body, netsrv/server.go lines 248-266: an acceptor error
logs and returns; an accepted connection runs newClient, logging a
registration error but continuing either way; a hang-up request runs
hangUpClient; a root Rx message is drained; the root Done signal logs
and returns. -/
def mainLoopStep (s : ServerState) (e : MainEvent) : MainStep :=
  match e with
  | .accErr err =>
      ⟨s, ["error accepting connections: " ++ err], [], some .acceptError⟩
  | .accConn c copy =>
      let r := newClient s c copy
      match r.errOut with
      | some err =>
          ⟨r.state,
           r.logs ++ ["error registering connection " ++ c.addr ++ ": " ++ err],
           [], none⟩
      | none => ⟨r.state, r.logs, [], none⟩
  | .clientHangUp cid =>
      let p := hangUpClient s cid
      ⟨p.1, p.2, [], none⟩
  | .rootRx _ => ⟨s, [], [], none⟩
  | .rootDone => ⟨s, ["received controller shutdown"], [], some .controllerShutdown⟩

/-- Accumulated result of running the main loop over a finite stream of
events: final state, logs, and the exit reason if the loop returned
before exhausting the stream (none means the loop is still running). -/
structure MainLoopResult where
  state : ServerState
  logs : List String
  exit : Option ExitReason
deriving DecidableEq

/-- mainLoop, netsrv/server.go lines 247-267, folded over an event
stream. -/
def mainLoop (s : ServerState) : List MainEvent → MainLoopResult
  | [] => ⟨s, [], none⟩
  | e :: rest =>
      let st := mainLoopStep s e
      match st.exit with
      | some r => ⟨st.state, st.logs, some r⟩
      | none =>
          let tail := mainLoop st.state rest
          ⟨tail.state, st.logs ++ tail.logs, tail.exit⟩

/-! ## The accept loop's select statements, netsrv/server.go 269-294

Go select semantics: a branch may be taken only when it is ready.  A
receive on the closed done channel is always ready; a send on an
unbuffered channel is ready exactly when another goroutine is currently
ready to receive on it. -/

/-- Which branch of a two-way select between a channel send and a
receive on done was taken. -/
inductive SelectPick
  | sendSide
  | doneSide
deriving DecidableEq

/-- Readiness of each branch of such a select, given whether a receiver
is ready on the send channel and whether done is closed. -/
def canPick (receiverReady doneClosed : Bool) : SelectPick → Bool
  | .sendSide => receiverReady
  | .doneSide => doneClosed

/-- The accept loop's handling of one accepted connection,
netsrv/server.go lines 286-292: forward the connection to the main loop
on accConn, or, when the done branch is taken, close the connection.
Returns the events delivered to the main loop and whether the
connection was closed on the spot. -/
def acceptConnStep (pick : SelectPick) (c : Conn) (copy : CopyResult) :
    List MainEvent × Bool :=
  match pick with
  | .sendSide => ([MainEvent.accConn c copy], false)
  | .doneSide => ([], true)

/-- The accept loop's handling of a listener Accept failure,
netsrv/server.go lines 275-283: the error is sent on accErr when the
send branch is taken (dropped when the done branch is), both acceptor
channels are closed, and the loop returns.  Returns the events
delivered to the main loop and whether the loop terminated. -/
def acceptFailStep (pick : SelectPick) (e : String) :
    List MainEvent × Bool :=
  match pick with
  | .sendSide => ([MainEvent.accErr e], true)
  | .doneSide => ([], true)

/-! ## Run, netsrv/server.go lines 218-244

Run is modelled as the trace of observable actions it performs, in
program order.  The two defers run last, in last-in-first-out order:
shutdownController (deferred second) before wg.Wait (deferred first). -/

/-- An observable action of Run. -/
inductive RunEvent
  | logged (s : String)
  | spawnedAcceptor
  | mainLoopReturned (r : ExitReason)
  | closedDone
  | hungUp (cid : Nat)
  | closedListener
  | calledShutdown
  | waitedAll
deriving DecidableEq

/-- Run, netsrv/server.go lines 219-244, as a trace.  `listenErr` is
the outcome of net.Listen, `events` drives the main loop, `lnCloseErr`
is the outcome of ln.Close.  On a bind failure Run logs and returns,
leaving only the two defers (shutdownController, which logs and calls
rootClient.Shutdown, then wg.Wait).  Otherwise it spawns the acceptor,
runs the main loop and, once the loop returns, closes done, hangs up
every live client (hangUpAllClients, lines 202-206), closes the
listener, and runs the defers.  If the event stream ends with the loop
still running the trace stops at that point. -/
def RunTrace (host : String) (listenErr : Option String)
    (events : List MainEvent) (lnCloseErr : Option String) :
    List RunEvent :=
  match listenErr with
  | some e =>
      [RunEvent.logged ("couldn\x27t open server: " ++ e),
       RunEvent.logged "shutting down",
       RunEvent.calledShutdown,
       RunEvent.waitedAll]
  | none =>
      let ml := mainLoop ⟨[]⟩ events
      [RunEvent.logged ("now listening on " ++ host),
       RunEvent.spawnedAcceptor]
      ++ ml.logs.map RunEvent.logged
      ++ match ml.exit with
         | none => []
         | some r =>
             [RunEvent.mainLoopReturned r, RunEvent.closedDone]
             ++ ml.state.clients.flatMap
                  (fun cid => [RunEvent.logged ("hanging up: " ++ toString cid),
                               RunEvent.hungUp cid])
             ++ ([RunEvent.closedListener]
             ++ ((match lnCloseErr with
                  | some ce => [RunEvent.logged ("error closing listener: " ++ ce)]
                  | none => [])
             ++ [RunEvent.logged "closed listener",
                 RunEvent.logged "shutting down",
                 RunEvent.calledShutdown,
                 RunEvent.waitedAll]))

/-! ## Spec-modelled Controller processing of SetSelect

controller.go is not part of the visible source; only the request
vocabulary (list/requests.go) is.  The processing of a
SetSelectRequest is therefore modelled from the spec. -/

/-- Modelled from the spec: a list item, carrying the opaque
equality-comparable fingerprint the hash guard compares against. -/
structure Item where
  hash : String
  name : String
deriving DecidableEq

/-- Modelled from the spec: the Controller-owned list state - the
ordered items, the current selection index, and the auto-advance
policy. -/
structure ListState where
  items : List Item
  selection : Int
  autoMode : AutoMode
deriving DecidableEq

/-- The item currently at a (Go int) index, if the index is in
bounds. -/
def itemAt (st : ListState) (idx : Int) : Option Item :=
  if idx < 0 then none else st.items[idx.toNat]?

/-- Modelled from the spec: the Responses a Controller emits for a
SetSelect request - a selection-changed broadcast or a rejection. -/
inductive Response
  | selectionChanged (Index : Int)
  | rejection (reason : String)
deriving DecidableEq

/-- A Response together with the channel it is delivered on (a Client
handle's Rx for broadcasts, the origin's ReplyTx for unicasts). -/
structure Delivery where
  dest : Nat
  response : Response
deriving DecidableEq

/-- The hash guard: a SetSelect\x7bIndex, Hash\x7d succeeds exactly when the
item currently at Index exists and its fingerprint equals Hash. -/
def setSelectOk (st : ListState) (idx : Int) (hash : String) : Bool :=
  match itemAt st idx with
  | some it => it.hash == hash
  | none => false

/-- Modelled from the spec: Controller processing of
SetSelectRequest\x7bIndex, Hash\x7d (controller.go is not in the visible
source).  `attached` lists the Rx channels of every attached Client
handle and `replyTx` is the requester's reply channel.  It validates
Index in bounds and Hash against the current item; on success it
mutates the selection and broadcasts a selection-changed Response to
every attached Client's Rx; on failure it leaves the state unchanged
and sends one rejection Response to the requester's ReplyTx only. -/
def processSetSelect (st : ListState) (attached : List Nat) (replyTx : Nat)
    (idx : Int) (hash : String) : ListState × List Delivery :=
  match itemAt st idx with
  | some it =>
      if it.hash == hash then
        (⟨st.items, idx, st.autoMode⟩,
         attached.map (fun d => ⟨d, Response.selectionChanged idx⟩))
      else
        (st, [⟨replyTx, Response.rejection "hash mismatch"⟩])
  | none => (st, [⟨replyTx, Response.rejection "index out of bounds"⟩])

/-! ## Claims about the connection loops -/

/-- Claim C1, counterexample: a line that tokenises but fails to parse
does not leave RunTx reading subsequent lines with the connection open.
On the stream [parse failure, well-formed message], RunTx exits leaving
the second line unread, forwards nothing, and the transmit goroutine
then requests a hang-up of the connection. -/
theorem runTx_parse_failure_cex :
    (RunTx [TxStep.parseErr "bogus" "invalid message",
            TxStep.msg ⟨"next", []⟩ true]).leftover ≠ []
    ∧ (RunTx [TxStep.parseErr "bogus" "invalid message",
              TxStep.msg ⟨"next", []⟩ true]).forwarded = []
    ∧ (txGoroutine 7 false
        [TxStep.parseErr "bogus" "invalid message",
         TxStep.msg ⟨"next", []⟩ true]).2 = [GoNotice.hangUp 7] := by
  refine ⟨?_, rfl, rfl⟩
  intro h
  simp [RunTx] at h

/-- Claim C1 (amended): when tokenising succeeds but parsing the line
into a message fails, RunTx logs the error and terminates its loop
without reading further lines; the malformed message never reaches the
Controller (nothing is forwarded, and no response of any kind is sent
to the peer - the error is only logged server-side); the transmit
goroutine then sends a hang-up notice for the connection, which the
main loop handles without itself terminating, so the failure stays
confined to that one connection. -/
theorem runTx_parse_failure_hangs_up (l e : String) (rest : List TxStep)
    (cid : Nat) (s : ServerState) :
    RunTx (TxStep.parseErr l e :: rest) = ⟨[], [connectionError e], rest⟩
    ∧ (txGoroutine cid false (TxStep.parseErr l e :: rest)).2 =
        [GoNotice.hangUp cid]
    ∧ (mainLoopStep s (MainEvent.clientHangUp cid)).exit = none := by
  exact ⟨rfl, rfl, rfl⟩

/-- Claim C8, counterexample: a socket write failure in RunRx does not
cause any hang-up notification to the main loop: the goroutine running
RunRx (netsrv/server.go lines 140-143) emits no notice at all, on the
failing stream as on any other. -/
theorem runRx_write_failure_cex :
    (rxGoroutine [RxStep.packed "OHAI" (some "broken pipe")]).2 = []
    ∧ (RunRx [RxStep.packed "OHAI" (some "broken pipe")]).written = [] := by
  exact ⟨rfl, rfl⟩

/-- Claim C8 (amended): in RunRx a pack failure is logged and the loop
continues with the next Response, while a socket write failure is
logged and terminates the loop, leaving later Responses unwritten; the
RunRx goroutine itself sends no hang-up notification to the main loop -
the hang-up notice for the connection is sent by the transmit goroutine
when RunTx exits, and the main loop then removes only that connection,
leaving all others and the Controller unaffected. -/
theorem runRx_error_handling (e b : String) (rest : List RxStep)
    (cid : Nat) (txs : List TxStep) (s : ServerState) :
    RunRx (RxStep.packed b (some e) :: rest) = ⟨[], [connectionError e], rest⟩
    ∧ RunRx (RxStep.packErr e :: rest) =
        ⟨(RunRx rest).written,
         connectionError e :: (RunRx rest).logs,
         (RunRx rest).leftover⟩
    ∧ (rxGoroutine (RxStep.packed b (some e) :: rest)).2 = []
    ∧ (txGoroutine cid false txs).2 = [GoNotice.hangUp cid]
    ∧ (mainLoopStep s (MainEvent.clientHangUp cid)).state.clients =
        s.clients.erase cid
    ∧ (mainLoopStep s (MainEvent.clientHangUp cid)).exit = none := by
  exact ⟨rfl, rfl, rfl, rfl, rfl, rfl⟩

/-! ## Claims about the request vocabulary -/

/-- Claim C4, counterexample: Request.Body is declared as the open type
`interface\x7b\x7d`, so a well-typed Request whose body is none of the four
declared request kinds exists - here one whose body is a plain Go
string. -/
theorem request_body_open_cex :
    isKnownRequestBody
      (Request.mk ⟨none, 0⟩ (InterfaceValue.goString "surprise")).Body
      = false := rfl

/-- Claim C4 (amended): the request body kinds declared in
list/requests.go are exactly four - DumpRequest, SetSelectRequest,
NextRequest, SetAutoModeRequest - so they form a closed set of
variants; but the Body field itself is declared with the open type
`interface\x7b\x7d`, so this closedness is a convention of the code, not
enforced by the type. -/
theorem known_request_bodies_exactly_four (v : InterfaceValue) :
    isKnownRequestBody v = true ↔ ∃ b : KnownRequestBody, b.toBody = v := by
  cases v with
  | DumpRequest =>
      exact ⟨fun _ => ⟨KnownRequestBody.dump, rfl⟩, fun _ => rfl⟩
  | SetSelectRequest i h =>
      exact ⟨fun _ => ⟨KnownRequestBody.setSelect i h, rfl⟩, fun _ => rfl⟩
  | NextRequest =>
      exact ⟨fun _ => ⟨KnownRequestBody.next, rfl⟩, fun _ => rfl⟩
  | SetAutoModeRequest m =>
      exact ⟨fun _ => ⟨KnownRequestBody.setAutoMode m, rfl⟩, fun _ => rfl⟩
  | goString s =>
      constructor
      · intro h; simp [isKnownRequestBody] at h
      · rintro ⟨b, hb⟩; cases b <;> simp [KnownRequestBody.toBody] at hb
  | goInt n =>
      constructor
      · intro h; simp [isKnownRequestBody] at h
      · rintro ⟨b, hb⟩; cases b <;> simp [KnownRequestBody.toBody] at hb

/-- Claim C4 (amended), witness: a concrete declared variant is
recognised as one of the four. -/
theorem known_request_bodies_exactly_four_witness :
    isKnownRequestBody KnownRequestBody.next.toBody = true :=
  (known_request_bodies_exactly_four KnownRequestBody.next.toBody).mpr
    ⟨KnownRequestBody.next, rfl⟩

/-! ## Claims about the main loop's handling of single events -/

/-- Claim C6: when Controller.Copy fails for an accepted connection,
newClient closes the socket, spawns no goroutines, registers nothing,
and returns the error; the main loop logs the registration error,
leaves its state unchanged, and keeps running. -/
theorem copy_failure_nonfatal (s : ServerState) (c : Conn) (e : String) :
    newClient s c (CopyResult.failed e) =
      ⟨s, true, 0, ["new connection: " ++ c.addr], some e⟩
    ∧ (mainLoopStep s (MainEvent.accConn c (CopyResult.failed e))).state = s
    ∧ (mainLoopStep s (MainEvent.accConn c (CopyResult.failed e))).exit = none
    ∧ (mainLoopStep s (MainEvent.accConn c (CopyResult.failed e))).logs =
        ["new connection: " ++ c.addr,
         "error registering connection " ++ c.addr ++ ": " ++ e] := by
  exact ⟨rfl, rfl, rfl, rfl⟩

/-- Claim C7: an Accept failure makes the accept loop deliver the error
to the main loop (when the send branch of its select is taken; the done
branch only drops it) and terminate either way; the main loop exits
exactly on an acceptor error (besides the controller-shutdown signal),
and no per-connection event - a connection whose registration failed or
succeeded, a hang-up request, a drained root response - makes it
exit. -/
theorem accept_error_fatal_only (s : ServerState) (e err : String)
    (c : Conn) (cid clientId : Nat) (r : RootResponse) :
    acceptFailStep SelectPick.sendSide e = ([MainEvent.accErr e], true)
    ∧ acceptFailStep SelectPick.doneSide e = ([], true)
    ∧ (mainLoopStep s (MainEvent.accErr e)).exit = some ExitReason.acceptError
    ∧ (mainLoopStep s (MainEvent.accErr e)).logs =
        ["error accepting connections: " ++ e]
    ∧ (mainLoopStep s (MainEvent.accConn c (CopyResult.failed err))).exit = none
    ∧ (mainLoopStep s (MainEvent.accConn c (CopyResult.ok clientId))).exit = none
    ∧ (mainLoopStep s (MainEvent.clientHangUp cid)).exit = none
    ∧ (mainLoopStep s (MainEvent.rootRx r)).exit = none := by
  exact ⟨rfl, rfl, rfl, rfl, rfl, rfl, rfl, rfl⟩

/-- Claim C10: a Response arriving on the root Client handle's Rx is
drained by the main loop with no effect at all: the state (and so the
live-connection set) is unchanged, nothing is logged, no outbound wire
message is produced, and the loop does not terminate. -/
theorem root_rx_drained (s : ServerState) (r : RootResponse) :
    mainLoopStep s (MainEvent.rootRx r) = ⟨s, [], [], none⟩ := rfl

/-! ## Helper lemmas about the Run trace -/

/-- The shutdown-phase events of a Run trace: the main loop returning,
done closing, the listener closing, the controller shutdown call, and
the wait for the goroutines (hang-ups and log lines are per-connection
detail, filtered out). -/
def isShutdownPhase : RunEvent → Bool
  | .mainLoopReturned _ => true
  | .closedDone => true
  | .closedListener => true
  | .calledShutdown => true
  | .waitedAll => true
  | _ => false

lemma runTrace_of_exit (host : String) (events : List MainEvent)
    (ce : Option String) (r : ExitReason)
    (h : (mainLoop ⟨[]⟩ events).exit = some r) :
    RunTrace host none events ce =
      [RunEvent.logged ("now listening on " ++ host), RunEvent.spawnedAcceptor]
      ++ ((mainLoop ⟨[]⟩ events).logs.map RunEvent.logged
      ++ ([RunEvent.mainLoopReturned r, RunEvent.closedDone]
      ++ ((mainLoop ⟨[]⟩ events).state.clients.flatMap
            (fun cid => [RunEvent.logged ("hanging up: " ++ toString cid),
                         RunEvent.hungUp cid])
      ++ ([RunEvent.closedListener]
      ++ ((match ce with
           | some x => [RunEvent.logged ("error closing listener: " ++ x)]
           | none => ([] : List RunEvent))
      ++ [RunEvent.logged "closed listener",
          RunEvent.logged "shutting down", RunEvent.calledShutdown,
          RunEvent.waitedAll]))))) := by
  simp [RunTrace, h]

lemma filter_phase_logged (ls : List String) :
    (ls.map RunEvent.logged).filter isShutdownPhase = [] := by
  induction ls with
  | nil => rfl
  | cons a t ih => simp [isShutdownPhase, ih]

lemma filter_phase_hangups (cs : List Nat) :
    (cs.flatMap
      (fun cid => [RunEvent.logged ("hanging up: " ++ toString cid),
                   RunEvent.hungUp cid])).filter isShutdownPhase = [] := by
  induction cs with
  | nil => rfl
  | cons a t ih => simp [isShutdownPhase, ih]

lemma filter_phase_closeErr (ce : Option String) :
    ((match ce with
      | some x => [RunEvent.logged ("error closing listener: " ++ x)]
      | none => ([] : List RunEvent))).filter isShutdownPhase = [] := by
  cases ce <;> simp [isShutdownPhase]

lemma sublist_of_tail {α : Type} {x tail : List α} (pre1 pre2 : List α)
    (h : x.Sublist tail) : x.Sublist (pre1 ++ (pre2 ++ tail)) :=
  (h.trans (List.sublist_append_right pre2 tail)).trans
    (List.sublist_append_right pre1 (pre2 ++ tail))

/-! ## Claims about Run and the shutdown sequence -/

/-- Claim C3, counterexample: in the trace of a run shut down by the
controller notification, the listener is closed and the goroutines are
waited for, but the wait does not happen before the listener close:
wg.Wait is a defer and runs last, after ln.Close. -/
theorem run_shutdown_order_cex :
    RunEvent.waitedAll ∈ RunTrace "h" none [MainEvent.rootDone] none
    ∧ RunEvent.closedListener ∈ RunTrace "h" none [MainEvent.rootDone] none
    ∧ ¬ List.Sublist [RunEvent.waitedAll, RunEvent.closedListener]
        (RunTrace "h" none [MainEvent.rootDone] none) := by
  refine ⟨by decide, by decide, by decide⟩

/-- Claim C3 (amended): when the main loop terminates on a Controller
shutdown notification (or any exit), the shutdown phases happen in this
order: the main loop returns, the global done channel is closed, every
live connection is hung up, the listener is closed, the controller is
shut down, and only then are all spawned goroutines waited for - the
wait is a defer and runs after the listener close (which is what
unblocks the acceptor), not before it. -/
theorem run_shutdown_phase_order (host : String) (events : List MainEvent)
    (ce : Option String) (r : ExitReason)
    (h : (mainLoop ⟨[]⟩ events).exit = some r) :
    (RunTrace host none events ce).filter isShutdownPhase =
      [RunEvent.mainLoopReturned r, RunEvent.closedDone,
       RunEvent.closedListener, RunEvent.calledShutdown, RunEvent.waitedAll]
    ∧ ∀ cid ∈ (mainLoop ⟨[]⟩ events).state.clients,
        List.Sublist
          [RunEvent.closedDone, RunEvent.hungUp cid, RunEvent.closedListener]
          (RunTrace host none events ce) := by
  rw [runTrace_of_exit host events ce r h]
  constructor
  · simp [List.filter_append, filter_phase_logged, filter_phase_hangups,
          filter_phase_closeErr, isShutdownPhase]
  · intro cid hcid
    have s1 : [RunEvent.closedDone].Sublist
        [RunEvent.mainLoopReturned r, RunEvent.closedDone] :=
      (List.Sublist.refl _).cons _
    have s2 : [RunEvent.hungUp cid].Sublist
        ((mainLoop ⟨[]⟩ events).state.clients.flatMap
          (fun c => [RunEvent.logged ("hanging up: " ++ toString c),
                     RunEvent.hungUp c])) := by
      refine List.singleton_sublist.mpr ?_
      exact List.mem_flatMap.mpr ⟨cid, hcid, by simp⟩
    have s3 : [RunEvent.closedListener].Sublist
        ([RunEvent.closedListener]
         ++ ((match ce with
              | some x => [RunEvent.logged ("error closing listener: " ++ x)]
              | none => ([] : List RunEvent))
         ++ [RunEvent.logged "closed listener",
             RunEvent.logged "shutting down", RunEvent.calledShutdown,
             RunEvent.waitedAll])) :=
      List.sublist_append_left _ _
    have hmid := s1.append (s2.append s3)
    exact sublist_of_tail _ _ hmid

/-- Claim C3 (amended), witness at a concrete run shut down by the
controller notification. -/
theorem run_shutdown_phase_order_witness :
    (RunTrace "h" none [MainEvent.rootDone] none).filter isShutdownPhase =
      [RunEvent.mainLoopReturned ExitReason.controllerShutdown,
       RunEvent.closedDone, RunEvent.closedListener,
       RunEvent.calledShutdown, RunEvent.waitedAll] :=
  (run_shutdown_phase_order "h" [MainEvent.rootDone] none
    ExitReason.controllerShutdown rfl).1

/-- Claim C9: every exit path of Run calls Shutdown on the root Client
handle before returning: the bind-failure path (where done is never
closed, only the defers run), and every path on which the main loop
returned - acceptor fatal error or controller shutdown alike. -/
theorem run_always_shuts_down_controller (host : String)
    (events : List MainEvent) (ce : Option String) :
    (∀ e, RunEvent.calledShutdown ∈ RunTrace host (some e) events ce
        ∧ RunEvent.closedDone ∉ RunTrace host (some e) events ce)
    ∧ (∀ r, (mainLoop ⟨[]⟩ events).exit = some r →
        RunEvent.calledShutdown ∈ RunTrace host none events ce) := by
  constructor
  · intro e
    constructor
    · simp [RunTrace]
    · simp [RunTrace]
  · intro r h
    rw [runTrace_of_exit host events ce r h]
    simp

/-- Claim C9, witness at a concrete run for each exit path: the
bind-failure path and the controller-shutdown path. -/
theorem run_always_shuts_down_controller_witness :
    (RunEvent.calledShutdown ∈ RunTrace "h" (some "EADDRINUSE") [] none
      ∧ RunEvent.closedDone ∉ RunTrace "h" (some "EADDRINUSE") [] none)
    ∧ RunEvent.calledShutdown ∈ RunTrace "h" none [MainEvent.rootDone] none :=
  ⟨(run_always_shuts_down_controller "h" [] none).1 "EADDRINUSE",
   (run_always_shuts_down_controller "h" [MainEvent.rootDone] none).2
     ExitReason.controllerShutdown rfl⟩

/-- Claim C5: once the global done channel is closed the main loop has
already returned (done closes only after it, as the trace order shows),
so no receiver is ready on accConn; the accept loop's select can then
only take the done branch, under which the freshly accepted connection
is closed immediately and no event is delivered to the main loop - in
particular the connection is never registered, since the client set
grows only when the main loop receives an accConn event; and the select
never blocks, because its done branch is ready. -/
theorem accept_after_done_closed (c : Conn) (copy : CopyResult)
    (pick : SelectPick) (hp : canPick false true pick = true) :
    pick = SelectPick.doneSide
    ∧ acceptConnStep pick c copy = ([], true)
    ∧ canPick false true SelectPick.doneSide = true
    ∧ (∀ s e, c.id ∈ (mainLoopStep s e).state.clients →
        c.id ∈ s.clients ∨ ∃ c2 copy2, e = MainEvent.accConn c2 copy2)
    ∧ (∀ host events ce r, (mainLoop ⟨[]⟩ events).exit = some r →
        List.Sublist [RunEvent.mainLoopReturned r, RunEvent.closedDone]
          (RunTrace host none events ce)) := by
  cases pick with
  | sendSide => simp [canPick] at hp
  | doneSide =>
      refine ⟨rfl, rfl, rfl, ?_, ?_⟩
      · intro s e hmem
        cases e with
        | accErr err => exact Or.inl hmem
        | accConn c2 copy2 => exact Or.inr ⟨c2, copy2, rfl⟩
        | clientHangUp cid =>
            exact Or.inl (List.mem_of_mem_erase hmem)
        | rootRx resp => exact Or.inl hmem
        | rootDone => exact Or.inl hmem
      · intro host events ce r h
        rw [runTrace_of_exit host events ce r h]
        exact sublist_of_tail _ _ (List.sublist_append_left _ _)

/-- Claim C5, witness: with done closed and the main loop gone, the
select resolves to the done branch and the concrete connection is
closed without being forwarded. -/
theorem accept_after_done_closed_witness :
    acceptConnStep SelectPick.doneSide ⟨0, "peer"⟩ (CopyResult.ok 1) =
      ([], true) :=
  (accept_after_done_closed ⟨0, "peer"⟩ (CopyResult.ok 1)
    SelectPick.doneSide rfl).2.1

/-! ## Claim about SetSelect processing (spec-modelled Controller) -/

/-- Claim C2: processing SetSelect\x7bIndex, Hash\x7d succeeds exactly when
the item currently at Index exists and its hash equals Hash; on success
the selection is set to Index and a selection-changed Response is
delivered to every attached Client handle (and nothing else); on
failure the state is unchanged and exactly one rejection Response is
produced, addressed to the requester's ReplyTx only. -/
theorem setSelect_hash_guard (st : ListState) (attached : List Nat)
    (replyTx : Nat) (idx : Int) (hash : String) :
    (setSelectOk st idx hash = true ↔
      ∃ it, itemAt st idx = some it ∧ it.hash = hash)
    ∧ (setSelectOk st idx hash = true →
        (processSetSelect st attached replyTx idx hash).1 =
          ⟨st.items, idx, st.autoMode⟩
        ∧ (processSetSelect st attached replyTx idx hash).2 =
            attached.map (fun d => ⟨d, Response.selectionChanged idx⟩)
        ∧ ∀ d ∈ attached,
            Delivery.mk d (Response.selectionChanged idx) ∈
              (processSetSelect st attached replyTx idx hash).2)
    ∧ (setSelectOk st idx hash = false →
        (processSetSelect st attached replyTx idx hash).1 = st
        ∧ ∃ reason, (processSetSelect st attached replyTx idx hash).2 =
            [⟨replyTx, Response.rejection reason⟩]) := by
  cases hit : itemAt st idx with
  | none =>
      refine ⟨?_, ?_, ?_⟩
      · simp [setSelectOk, hit]
      · intro h; simp [setSelectOk, hit] at h
      · intro _
        exact ⟨by simp [processSetSelect, hit],
               "index out of bounds", by simp [processSetSelect, hit]⟩
  | some it =>
      refine ⟨?_, ?_, ?_⟩
      · simp [setSelectOk, hit]
      · intro h
        have heq : it.hash = hash := by
          simpa [setSelectOk, hit] using h
        refine ⟨by simp [processSetSelect, hit, heq], by simp [processSetSelect, hit, heq], ?_⟩
        intro d hd
        simpa [processSetSelect, hit, heq] using hd
      · intro h
        have hne : ¬ it.hash = hash := by
          simpa [setSelectOk, hit] using h
        exact ⟨by simp [processSetSelect, hit, hne],
               "hash mismatch", by simp [processSetSelect, hit, hne]⟩

/-- Claim C2, witness: a matching hash mutates the selection; a stale
hash leaves the state unchanged. -/
theorem setSelect_hash_guard_witness :
    (processSetSelect ⟨[⟨"h1", "trackA"⟩], 0, AutoMode.off⟩ [5, 6] 9 0 "h1").1 =
      ⟨[⟨"h1", "trackA"⟩], 0, AutoMode.off⟩
    ∧ (processSetSelect ⟨[⟨"h1", "trackA"⟩], 0, AutoMode.off⟩ [5, 6] 9 0 "stale").1 =
      ⟨[⟨"h1", "trackA"⟩], 0, AutoMode.off⟩ :=
  ⟨((setSelect_hash_guard ⟨[⟨"h1", "trackA"⟩], 0, AutoMode.off⟩ [5, 6] 9 0 "h1").2.1
      (by decide)).1,
   ((setSelect_hash_guard ⟨[⟨"h1", "trackA"⟩], 0, AutoMode.off⟩ [5, 6] 9 0 "stale").2.2
      (by decide)).1⟩

end Baps3d
